import Mathlib

/-!
# FaceFX Matinee control helper

A shallow embedding of `Source/FaceFXEditor/Private/Matinee/FaceFXMatineeControlHelper.cpp`.

The helper is editor glue: every method is a short piece of control flow over
host objects, a handful of cached fields on the helper, and calls into the host
(log, modal dialog, popup menu, `FinishAddKey`).  The embedding keeps

* the helper's mutable members as a record that is threaded through the methods,
* the calls into the host as an ordered list of `Effect`s,
* the way a method ends as a `Status`: it returns a value, a `check`/`CastChecked`
  assertion fails, or a null pointer is dereferenced.

Pointers are `Option`s (`none` is `nullptr`); object identity is an address (`Nat`).
-/

namespace FaceFXMatinee

set_option linter.unusedVariables false

/-! ## Engine value types -/

/-- Engine names, compared here by their text. -/
abbrev FName := String

/-- The engine's `NAME_None`. -/
def NAME_None : FName := "None"

/-- `FName(*Text.ToString())`: the empty text names `NAME_None`. -/
def FName.ofText (Text : String) : FName :=
  if Text = "" then NAME_None else Text

/-- A `float`, carried as its bit pattern; the helper never computes with one. -/
structure FloatBits where
  bits : Nat
  deriving DecidableEq, Repr

/-- `ETextCommit::Type`. -/
inductive ETextCommit where
  | Default
  | OnEnter
  | OnUserMovedFocus
  | OnCleared
  deriving DecidableEq, Repr

/-- `ECheckBoxState`. -/
inductive ECheckBoxState where
  | Unchecked
  | Checked
  | Undetermined
  deriving DecidableEq, Repr

/-! ## Plugin value types declared outside this translation unit -/

/-- Modelled from the spec: `FFaceFXSkelMeshComponentId` ("the chosen
skeletal-mesh-component identifier") is declared in a header that is not among the
sources; the source reads and writes its members `Index` and `Name`. -/
structure FFaceFXSkelMeshComponentId where
  Index : Int
  Name : FName
  deriving DecidableEq, Repr

/-- Modelled from the spec: the default-constructed component id, which is also the
reset one: no index (`INDEX_NONE`) and no name. -/
def FFaceFXSkelMeshComponentId.Default : FFaceFXSkelMeshComponentId :=
  ⟨-1, NAME_None⟩

/-- Modelled from the spec: `FFaceFXAnimId` ("an optional symbolic animation
group/name pair") is declared in a header that is not among the sources; the source
reads and writes its members `Group` and `Name`. -/
structure FFaceFXAnimId where
  Group : FName
  Name : FName
  deriving DecidableEq, Repr

/-- Modelled from the spec: `FFaceFXAnimId::Reset()`, declared outside the sources:
neither a group nor a name. -/
def FFaceFXAnimId.Reset : FFaceFXAnimId :=
  ⟨NAME_None, NAME_None⟩

/-- A `UFaceFXAnim` asset, by address. -/
structure UFaceFXAnim where
  Addr : Nat
  deriving DecidableEq, Repr

/-- What `FAssetData::GetAsset()` can hand back besides null. -/
inductive UObject where
  | FaceFXAnim (Anim : UFaceFXAnim)
  | Other (Addr : Nat)
  deriving DecidableEq, Repr

/-- `Cast<UFaceFXAnim>(Object)`. -/
def CastFaceFXAnim : Option UObject → Option UFaceFXAnim
  | some (.FaceFXAnim Anim) => some Anim
  | _ => none

/-- `FAssetData`, as far as the helper looks at it. -/
structure FAssetData where
  GetAsset : Option UObject
  deriving DecidableEq, Repr

/-- Modelled from the spec: `FFaceFXTrackKey` ("the new keyframe record") is declared
in a header that is not among the sources.  The four members the source writes, and
the key's time as the part it never touches. -/
structure FFaceFXTrackKey where
  Time : FloatBits
  SkelMeshComponentId : FFaceFXSkelMeshComponentId
  AnimationId : FFaceFXAnimId
  Animation : Option UFaceFXAnim
  bLoop : Bool
  deriving DecidableEq, Repr

/-- A `UFaceFXMatineeControl` track: its keys, and whether its outer is a
`UInterpGroup`. -/
structure UFaceFXMatineeControl where
  OuterIsInterpGroup : Bool
  Keys : List FFaceFXTrackKey
  deriving DecidableEq, Repr

/-- A `UInterpTrack*` that is not null: a FaceFX track or a track of another class. -/
inductive UInterpTrack where
  | FaceFX (TrackFaceFX : UFaceFXMatineeControl)
  | Other (Addr : Nat)
  deriving DecidableEq, Repr

/-- `Track->IsA(UFaceFXMatineeControl::StaticClass())`. -/
def UInterpTrack.IsFaceFXMatineeControl : UInterpTrack → Bool
  | .FaceFX _ => true
  | .Other _ => false

/-! ## Host objects -/

/-- `USkeletalMesh`, by name. -/
structure USkeletalMesh where
  Name : FName
  deriving DecidableEq, Repr

/-- `USkeletalMeshComponent`: its name and its mesh pointer. -/
structure USkeletalMeshComponent where
  Name : FName
  SkeletalMesh : Option USkeletalMesh
  deriving DecidableEq, Repr

/-- `UFaceFXCharacter`: `GetAllLinkedAnimationIds` fills a list and returns true
(`some`), or returns false (`none`). -/
structure UFaceFXCharacter where
  GetAllLinkedAnimationIds : Option (List FFaceFXAnimId)
  deriving DecidableEq, Repr

/-- `UFaceFXComponent`: what `GetSetupSkelMeshComponents` and `GetCharacter` yield. -/
structure UFaceFXComponent where
  GetSetupSkelMeshComponents : List (Option USkeletalMeshComponent)
  GetCharacter : Option UFaceFXCharacter
  deriving DecidableEq, Repr

/-- `AActor`: its name and what `FindComponentByClass<UFaceFXComponent>()` finds. -/
structure AActor where
  Name : String
  FindFaceFXComponent : Option UFaceFXComponent
  deriving DecidableEq, Repr

/-- `UInterpGroupInst`: the group it instantiates (by address) and its group actor. -/
structure UInterpGroupInst where
  Group : Option Nat
  GetGroupActor : Option AActor
  deriving DecidableEq, Repr

/-- `UInterpGroup`: its address, its name and its tracks. -/
structure UInterpGroup where
  Addr : Nat
  GroupName : FName
  InterpTracks : List UInterpTrack
  deriving DecidableEq, Repr

/-- `Group->FindTracksByClass(UFaceFXMatineeControl::StaticClass(), Tracks)`. -/
def UInterpGroup.FindFaceFXTracks (Group : UInterpGroup) : List UInterpTrack :=
  Group.InterpTracks.filter UInterpTrack.IsFaceFXMatineeControl

/-- `AMatineeActor`: its array of group instance pointers. -/
structure AMatineeActor where
  GroupInst : List (Option UInterpGroupInst)
  deriving DecidableEq, Repr

/-- `IMatineeBase`: what `GetMatineeActor()` returns. -/
structure IMatineeBase where
  GetMatineeActor : Option AMatineeActor
  deriving DecidableEq, Repr

/-- `FEdModeInterpEdit`: its `InterpEd` pointer. -/
structure FEdModeInterpEdit where
  InterpEd : Option IMatineeBase
  deriving DecidableEq, Repr

/-- The editor around one call: the active interp-edit mode, the group actor the base
helper's `GetGroupActor(Track)` resolves, the active top level window, whether the
content browser module loads, and the handle `PushMenu` hands back. -/
structure Editor where
  ActiveInterpEditMode : Option FEdModeInterpEdit
  GetGroupActor : Option AActor
  ActiveTopLevelWindow : Option Nat
  ContentBrowserLoads : Bool
  PushedMenu : Nat
  deriving DecidableEq, Repr

/-! ## Calls into the host -/

/-- The `UE_LOG(LogFaceFX, Warning, ...)` lines of the file. -/
inductive Warning where
  | GroupAlreadyContainsTrack (GroupName : FName)
  | GroupHasMoreThanOneActor (GroupName : FName)
  | ComponentMissing (ActorName : String)
  | ActorMissing
  | NoActorSelected
  | ComponentNotFoundInActor (ActorName : String)
  deriving DecidableEq, Repr

/-- The `LOCTEXT` keys handed to `FFaceFXEditorTools::ShowError`. -/
inductive ErrorText where
  | MatineeFaceFXAlreadyHasTrack
  | MatineeFaceFXAlreadyHadGroupActor
  | MatineeFaceFXMissingComponent
  | MatineeFaceFXMissingActor
  deriving DecidableEq, Repr

/-- One call into the host, in program order. -/
inductive Effect where
  | LogWarning (w : Warning)
  | ShowError (e : ErrorText)
  | PushMenu (Parent : Nat)
  | Dismiss (Menu : Nat)
  | FinishAddKey (Track : UInterpTrack) (bCommitKeys : Bool)
  | SetText (Text : String)
  deriving DecidableEq, Repr

/-- How a method ends. -/
inductive Status (α : Type) where
  | returned (value : α)
  | checkFailed
  | nullDereference
  deriving DecidableEq, Repr

/-- Number of warnings logged. -/
def countWarnings (effects : List Effect) : Nat :=
  (effects.filter fun e => match e with | .LogWarning _ => true | _ => false).length

/-- Number of modal error dialogs shown. -/
def countErrorDialogs (effects : List Effect) : Nat :=
  (effects.filter fun e => match e with | .ShowError _ => true | _ => false).length

/-- Number of `PushMenu` calls. -/
def countPushMenu (effects : List Effect) : Nat :=
  (effects.filter fun e => match e with | .PushMenu _ => true | _ => false).length

/-- Number of `FinishAddKey(Track, true)` calls. -/
def countFinishAddKey (effects : List Effect) : Nat :=
  (effects.filter fun e => match e with | .FinishAddKey _ true => true | _ => false).length

/-! ## `PreCreateTrack` -/

/-- What a const method leaves behind: its calls into the host and how it ended. -/
structure Trace (α : Type) where
  effects : List Effect
  status : Status α
  deriving DecidableEq, Repr

/-- The rejection idiom of `PreCreateTrack`: a logged warning, and the modal dialog
when prompts are allowed. -/
def reject (w : Warning) (e : ErrorText) (bAllowPrompts : Bool) : List Effect :=
  .LogWarning w :: (if bAllowPrompts then [.ShowError e] else [])

/-- The `for` loop over `MatineeActor->GroupInst` (lines 85-101): `none` is the early
`return false` on a second matching instance, `some GrInst` the value of `GrInst` when
the loop runs to its end. -/
def findGroupInst (Group : UInterpGroup) :
    List (Option UInterpGroupInst) → Option UInterpGroupInst → Option (Option UInterpGroupInst)
  | [], GrInst => some GrInst
  | GroupInst :: rest, GrInst =>
    match GroupInst with
    | some Inst =>
      if Inst.Group = some Group.Addr then
        match GrInst with
        | some _ => none
        | none => findGroupInst Group rest (some Inst)
      else findGroupInst Group rest GrInst
    | none => findGroupInst Group rest GrInst

/-- `UFaceFXMatineeControlHelper::PreCreateTrack` (lines 60-128). -/
def PreCreateTrack (Ed : Editor) (Group : UInterpGroup) (TrackDef : Option UInterpTrack)
    (bDuplicatingTrack : Bool) (bAllowPrompts : Bool) : Trace Bool :=
  match Ed.ActiveInterpEditMode with
  | none => ⟨[], .checkFailed⟩
  | some Mode =>
  match Mode.InterpEd with
  | none => ⟨[], .checkFailed⟩
  | some InterpEd =>
  if (Group.FindFaceFXTracks).length > 0 then
    ⟨reject (.GroupAlreadyContainsTrack Group.GroupName) .MatineeFaceFXAlreadyHasTrack
      bAllowPrompts, .returned false⟩
  else
  match InterpEd.GetMatineeActor with
  | none => ⟨[], .checkFailed⟩
  | some MatineeActor =>
  match findGroupInst Group MatineeActor.GroupInst none with
  | none =>
    ⟨reject (.GroupHasMoreThanOneActor Group.GroupName) .MatineeFaceFXAlreadyHadGroupActor
      bAllowPrompts, .returned false⟩
  | some none => ⟨[], .checkFailed⟩
  | some (some GrInst) =>
    match GrInst.GetGroupActor with
    | some Actor =>
      match Actor.FindFaceFXComponent with
      | none =>
        ⟨reject (.ComponentMissing Actor.Name) .MatineeFaceFXMissingComponent bAllowPrompts,
          .returned false⟩
      | some _ => ⟨[], .returned true⟩
    | none =>
      ⟨reject .ActorMissing .MatineeFaceFXMissingActor bAllowPrompts, .returned false⟩

/-- The non-null entries of `GroupInst` that refer to `Group`. -/
def groupInstsOf (Group : UInterpGroup) (GroupInst : List (Option UInterpGroupInst)) :
    List UInterpGroupInst :=
  (GroupInst.filterMap id).filter fun Inst => Inst.Group = some Group.Addr

/-! ## The helper object -/

/-- A single combo box item for the skel mesh selection (lines 45-53). -/
structure FFaceFXSkelMeshSelection where
  Id : FFaceFXSkelMeshComponentId
  Text : String
  deriving DecidableEq, Repr

/-- The mutable members of `UFaceFXMatineeControlHelper`.  `EntryPopupMenu` is a weak
pointer: `some` while it pins a live popup.  `SkelMeshComponentSelection` is the text
block of the combo box, with the text it shows. -/
structure UFaceFXMatineeControlHelper where
  KeyframeAddFaceFXAnim : Option UFaceFXAnim
  KeyframeAddFaceFXAnimId : FFaceFXAnimId
  KeyframeAddSkelMeshComponentId : FFaceFXSkelMeshComponentId
  bKeyframeSettingsLoop : Bool
  SkelMeshSelectionComboBoxEntries : List FFaceFXSkelMeshSelection
  KeyframeAddFaceDXExistingAnimIds : List FFaceFXAnimId
  EntryPopupMenu : Option Nat
  SkelMeshComponentSelection : Option String
  deriving DecidableEq, Repr

/-- The constructor (lines 55-58): null animation, no loop, everything else
default-constructed. -/
def UFaceFXMatineeControlHelper.New : UFaceFXMatineeControlHelper where
  KeyframeAddFaceFXAnim := none
  KeyframeAddFaceFXAnimId := FFaceFXAnimId.Reset
  KeyframeAddSkelMeshComponentId := FFaceFXSkelMeshComponentId.Default
  bKeyframeSettingsLoop := false
  SkelMeshSelectionComboBoxEntries := []
  KeyframeAddFaceDXExistingAnimIds := []
  EntryPopupMenu := none
  SkelMeshComponentSelection := none

/-- Modelled from the spec: `ResetCachedValues` is defined in the helper's header, which
is not among the sources.  The spec calls the cached selections (component identifier,
animation asset, animation group/name pair, loop flag) "reset before each new popup":
they go back to what the constructor gives them. -/
def ResetCachedValues (self : UFaceFXMatineeControlHelper) : UFaceFXMatineeControlHelper :=
  { self with
    KeyframeAddFaceFXAnim := none
    KeyframeAddFaceFXAnimId := FFaceFXAnimId.Reset
    KeyframeAddSkelMeshComponentId := FFaceFXSkelMeshComponentId.Default
    bKeyframeSettingsLoop := false }

/-- What a method of the helper leaves behind: the helper, the calls into the host and
how it ended. -/
structure Run (α : Type) where
  self : UFaceFXMatineeControlHelper
  effects : List Effect
  status : Status α
  deriving DecidableEq, Repr

/-! ## `PreCreateKeyframe` -/

/-- The text of a combo box entry (lines 235-246). -/
def skelMeshEntryText (SkelMeshComp : Option USkeletalMeshComponent) : String :=
  match SkelMeshComp with
  | some Comp =>
    match Comp.SkeletalMesh with
    | some Mesh => Comp.Name ++ ("  [Mesh: " ++ Mesh.Name ++ "]")
    | none => Comp.Name
  | none => "Unknown"

/-- The `for` loop that fills the combo box entries (lines 228-249), from index `i` on.
The flag is false when the loop stops at `SkelMeshComp->GetFName()` on a null
component (line 234, ahead of the null test of line 235). -/
def fillSkelMeshEntries :
    List (Option USkeletalMeshComponent) → Nat → List FFaceFXSkelMeshSelection →
      List FFaceFXSkelMeshSelection × Bool
  | [], _, Entries => (Entries, true)
  | SkelMeshComp :: rest, i, Entries =>
    match SkelMeshComp with
    | none => (Entries, false)
    | some Comp =>
      fillSkelMeshEntries rest (i + 1)
        (Entries ++ [⟨⟨(i : Int), Comp.Name⟩, skelMeshEntryText SkelMeshComp⟩])

/-- The existing animation ids of lines 301-312. -/
def existingAnimIds (FaceFXComponent : UFaceFXComponent) : List FFaceFXAnimId :=
  match FaceFXComponent.GetCharacter with
  | some Character =>
    match Character.GetAllLinkedAnimationIds with
    | some ExistingAnimIds => ExistingAnimIds
    | none => []
  | none => []

/-- `UFaceFXMatineeControlHelper::PreCreateKeyframe` (lines 130-334).
`FACEFX_USEANIMATIONLINKAGE` is the build switch of that name. -/
def PreCreateKeyframe (FACEFX_USEANIMATIONLINKAGE : Bool) (Ed : Editor)
    (self : UFaceFXMatineeControlHelper) (Track : UInterpTrack) (fTime : FloatBits) :
    Run Bool :=
  let self := ResetCachedValues self
  match Track with
  | .Other _ => ⟨self, [], .checkFailed⟩
  | .FaceFX TrackFaceFX =>
  if TrackFaceFX.OuterIsInterpGroup = false then ⟨self, [], .checkFailed⟩ else
  match Ed.GetGroupActor with
  | none => ⟨self, [.LogWarning .NoActorSelected], .returned false⟩
  | some Actor =>
  match Actor.FindFaceFXComponent with
  | none => ⟨self, [.LogWarning (.ComponentNotFoundInActor Actor.Name)], .returned false⟩
  | some FaceFXComponent =>
  match Ed.ActiveInterpEditMode with
  | none => ⟨self, [], .checkFailed⟩
  | some Mode =>
  match Mode.InterpEd with
  | none => ⟨self, [], .checkFailed⟩
  | some _ =>
  match Ed.ActiveTopLevelWindow with
  | none => ⟨self, [], .returned false⟩
  | some Parent =>
    if Ed.ContentBrowserLoads = false then ⟨self, [], .checkFailed⟩ else
    let self := { self with SkelMeshComponentSelection := some "<Default>" }
    let filled := fillSkelMeshEntries FaceFXComponent.GetSetupSkelMeshComponents 0
      [⟨FFaceFXSkelMeshComponentId.Default, "<Default>"⟩]
    let self := { self with SkelMeshSelectionComboBoxEntries := filled.1 }
    if filled.2 = false then ⟨self, [], .nullDereference⟩ else
    let self :=
      if FACEFX_USEANIMATIONLINKAGE then
        { self with KeyframeAddFaceDXExistingAnimIds := existingAnimIds FaceFXComponent }
      else self
    let self := { self with EntryPopupMenu := some Ed.PushedMenu }
    ⟨self, [.PushMenu Parent], .returned false⟩

/-! ## The popup callbacks -/

/-- The idiom `if (EntryPopupMenu.IsValid()) EntryPopupMenu.Pin()->Dismiss();`. -/
def dismissIfValid (self : UFaceFXMatineeControlHelper) : List Effect :=
  match self.EntryPopupMenu with
  | some Menu => [.Dismiss Menu]
  | none => []

/-- `UFaceFXMatineeControlHelper::OnAnimAssetSelected` (lines 336-348). -/
def OnAnimAssetSelected (self : UFaceFXMatineeControlHelper) (AssetData : FAssetData)
    (Matinee : Option IMatineeBase) (Track : UInterpTrack) : Run Unit :=
  let dismissed := dismissIfValid self
  match CastFaceFXAnim AssetData.GetAsset with
  | some SelectedAnim =>
    let self := { self with KeyframeAddFaceFXAnim := some SelectedAnim }
    match Matinee with
    | none => ⟨self, dismissed, .nullDereference⟩
    | some _ => ⟨self, dismissed ++ [.FinishAddKey Track true], .returned ()⟩
  | none => ⟨self, dismissed, .returned ()⟩

/-- `UFaceFXMatineeControlHelper::OnKeyframeLoopCheckboxChange` (lines 350-353). -/
def OnKeyframeLoopCheckboxChange (self : UFaceFXMatineeControlHelper)
    (NewState : ECheckBoxState) : Run Unit :=
  ⟨{ self with bKeyframeSettingsLoop := decide (NewState = ECheckBoxState.Checked) }, [],
    .returned ()⟩

/-- `UFaceFXMatineeControlHelper::OnSkelMeshComboBoxSelected` (lines 355-362). -/
def OnSkelMeshComboBoxSelected (self : UFaceFXMatineeControlHelper)
    (NewSelection : Option FFaceFXSkelMeshSelection) (Matinee : Option IMatineeBase)
    (Track : UInterpTrack) : Run Unit :=
  match NewSelection with
  | some Selection =>
    let self := { self with KeyframeAddSkelMeshComponentId := Selection.Id }
    match self.SkelMeshComponentSelection with
    | none => ⟨self, [], .nullDereference⟩
    | some _ =>
      ⟨{ self with SkelMeshComponentSelection := some Selection.Text },
        [.SetText Selection.Text], .returned ()⟩
  | none => ⟨self, [], .returned ()⟩

/-- `UFaceFXMatineeControlHelper::OnAnimGroupCommitted` (lines 377-395). -/
def OnAnimGroupCommitted (self : UFaceFXMatineeControlHelper) (Text : String)
    (CommitType : ETextCommit) (Matinee : Option IMatineeBase) (Track : UInterpTrack) : Run Unit :=
  match Matinee with
  | none => ⟨self, [], .checkFailed⟩
  | some _ =>
    let self := { self with
      KeyframeAddFaceFXAnimId := { self.KeyframeAddFaceFXAnimId with Group := FName.ofText Text } }
    if CommitType ≠ ETextCommit.OnEnter then ⟨self, [], .returned ()⟩ else
    ⟨self, dismissIfValid self ++ [.FinishAddKey Track true], .returned ()⟩

/-- `UFaceFXMatineeControlHelper::OnAnimIdCommitted` (lines 397-415). -/
def OnAnimIdCommitted (self : UFaceFXMatineeControlHelper) (Text : String)
    (CommitType : ETextCommit) (Matinee : Option IMatineeBase) (Track : UInterpTrack) : Run Unit :=
  match Matinee with
  | none => ⟨self, [], .checkFailed⟩
  | some _ =>
    let self := { self with
      KeyframeAddFaceFXAnimId := { self.KeyframeAddFaceFXAnimId with Name := FName.ofText Text } }
    if CommitType ≠ ETextCommit.OnEnter then ⟨self, [], .returned ()⟩ else
    ⟨self, dismissIfValid self ++ [.FinishAddKey Track true], .returned ()⟩

/-- `UFaceFXMatineeControlHelper::OnAnimIdComboBoxSelected` (lines 429-448). -/
def OnAnimIdComboBoxSelected (self : UFaceFXMatineeControlHelper)
    (NewSelection : Option FFaceFXAnimId) (Matinee : Option IMatineeBase)
    (Track : UInterpTrack) : Run Unit :=
  match Matinee with
  | none => ⟨self, [], .checkFailed⟩
  | some _ =>
    let dismissed := dismissIfValid self
    let self :=
      match NewSelection with
      | some SelectedAnimId => { self with KeyframeAddFaceFXAnimId := SelectedAnimId }
      | none => { self with KeyframeAddFaceFXAnimId := FFaceFXAnimId.Reset }
    ⟨self, dismissed ++ [.FinishAddKey Track true], .returned ()⟩

/-! ## `PostCreateKeyframe` -/

/-- What `PostCreateKeyframe` leaves behind: the helper, the track and how it ended. -/
structure PostRun where
  self : UFaceFXMatineeControlHelper
  Track : UInterpTrack
  status : Status Unit
  deriving DecidableEq, Repr

/-- The four assignments to `NewAnimKey` (lines 456-461). -/
def copySelection (FACEFX_USEANIMATIONLINKAGE : Bool) (self : UFaceFXMatineeControlHelper)
    (NewAnimKey : FFaceFXTrackKey) : FFaceFXTrackKey :=
  { NewAnimKey with
    SkelMeshComponentId := self.KeyframeAddSkelMeshComponentId
    Animation := self.KeyframeAddFaceFXAnim
    AnimationId :=
      if FACEFX_USEANIMATIONLINKAGE then self.KeyframeAddFaceFXAnimId
      else NewAnimKey.AnimationId
    bLoop := self.bKeyframeSettingsLoop }

/-- `UFaceFXMatineeControlHelper::PostCreateKeyframe` (lines 452-464).  `Keys[KeyIndex]`
is range checked by the array. -/
def PostCreateKeyframe (FACEFX_USEANIMATIONLINKAGE : Bool)
    (self : UFaceFXMatineeControlHelper) (Track : UInterpTrack) (KeyIndex : Int) : PostRun :=
  match Track with
  | .Other _ => ⟨self, Track, .checkFailed⟩
  | .FaceFX TrackFaceFX =>
    if KeyIndex < 0 then ⟨self, Track, .checkFailed⟩ else
    match TrackFaceFX.Keys[KeyIndex.toNat]? with
    | none => ⟨self, Track, .checkFailed⟩
    | some Key =>
      ⟨ResetCachedValues self,
        .FaceFX ⟨TrackFaceFX.OuterIsInterpGroup,
          TrackFaceFX.Keys.set KeyIndex.toNat (copySelection FACEFX_USEANIMATIONLINKAGE self Key)⟩,
        .returned ()⟩

/-! ## One popup, as the host drives it -/

/-- A callback the popup's widgets can fire; the delegates carry `Mode->InterpEd` and
`Track` as bound in `PreCreateKeyframe` (lines 161, 181, 207, 269, 276, 288). -/
inductive PopupCallback where
  | KeyframeLoopCheckboxChange (NewState : ECheckBoxState)
  | SkelMeshComboBoxSelected (NewSelection : Option FFaceFXSkelMeshSelection)
  | AnimGroupCommitted (Text : String) (CommitType : ETextCommit)
  | AnimIdCommitted (Text : String) (CommitType : ETextCommit)
  | AnimIdComboBoxSelected (NewSelection : Option FFaceFXAnimId)
  | AnimAssetSelected (AssetData : FAssetData)
  deriving DecidableEq, Repr

/-- Fire one callback with the bound `Matinee` and `Track`. -/
def fire (self : UFaceFXMatineeControlHelper) (Matinee : Option IMatineeBase)
    (Track : UInterpTrack) : PopupCallback → Run Unit
  | .KeyframeLoopCheckboxChange NewState => OnKeyframeLoopCheckboxChange self NewState
  | .SkelMeshComboBoxSelected NewSelection =>
    OnSkelMeshComboBoxSelected self NewSelection Matinee Track
  | .AnimGroupCommitted Text CommitType => OnAnimGroupCommitted self Text CommitType Matinee Track
  | .AnimIdCommitted Text CommitType => OnAnimIdCommitted self Text CommitType Matinee Track
  | .AnimIdComboBoxSelected NewSelection =>
    OnAnimIdComboBoxSelected self NewSelection Matinee Track
  | .AnimAssetSelected AssetData => OnAnimAssetSelected self AssetData Matinee Track

/-- The host's side of one popup: callbacks fire in order until one of them calls
`FinishAddKey(Track, true)`; the host then has the key in the track (`TrackWithKey`, at
`KeyIndex`) and calls `PostCreateKeyframe` on it.  `none`: no key was committed (the
callbacks ran out, or one of them did not return). -/
def popupSession (FACEFX_USEANIMATIONLINKAGE : Bool) (Matinee : Option IMatineeBase)
    (Track TrackWithKey : UInterpTrack) (KeyIndex : Int) :
    UFaceFXMatineeControlHelper → List PopupCallback → Option PostRun
  | _, [] => none
  | self, Callback :: rest =>
    let fired := fire self Matinee Track Callback
    match fired.status with
    | .returned _ =>
      if countFinishAddKey fired.effects > 0 then
        some (PostCreateKeyframe FACEFX_USEANIMATIONLINKAGE fired.self TrackWithKey KeyIndex)
      else
        popupSession FACEFX_USEANIMATIONLINKAGE Matinee Track TrackWithKey KeyIndex
          fired.self rest
    | _ => none

/-- The key a popup session committed, if any. -/
def committedKey (FACEFX_USEANIMATIONLINKAGE : Bool) (Matinee : Option IMatineeBase)
    (Track TrackWithKey : UInterpTrack) (KeyIndex : Int)
    (self : UFaceFXMatineeControlHelper) (Callbacks : List PopupCallback) :
    Option FFaceFXTrackKey :=
  match popupSession FACEFX_USEANIMATIONLINKAGE Matinee Track TrackWithKey KeyIndex self
      Callbacks with
  | some ⟨_, .FaceFX TrackFaceFX, .returned _⟩ => TrackFaceFX.Keys[KeyIndex.toNat]?
  | _ => none

/-- An animation id with a group or a name set. -/
def FFaceFXAnimId.IsSet (Id : FFaceFXAnimId) : Bool :=
  decide (Id.Group ≠ NAME_None) || decide (Id.Name ≠ NAME_None)

/-- The cached selection is in its reset state. -/
def IsReset (self : UFaceFXMatineeControlHelper) : Prop :=
  self.KeyframeAddSkelMeshComponentId = FFaceFXSkelMeshComponentId.Default ∧
  self.KeyframeAddFaceFXAnim = none ∧
  self.KeyframeAddFaceFXAnimId = FFaceFXAnimId.Reset ∧
  self.bKeyframeSettingsLoop = false

/-! ## Concrete objects used by the examples -/

/-- A skeletal mesh component with a mesh. -/
def exampleSkelMeshComp : USkeletalMeshComponent := ⟨"Head", some ⟨"SK_Head"⟩⟩

/-- A FaceFX component with two skeletal mesh components and no character. -/
def exampleComponent : UFaceFXComponent :=
  ⟨[some exampleSkelMeshComp, some ⟨"Body", none⟩], none⟩

/-- An actor that owns the FaceFX component. -/
def exampleActor : AActor := ⟨"Hero", some exampleComponent⟩

/-- An actor without a FaceFX component. -/
def exampleBareActor : AActor := ⟨"Prop", none⟩

/-- A group at address 7 with one track of another class. -/
def exampleGroup : UInterpGroup := ⟨7, "HeroGroup", [.Other 3]⟩

/-- An editor in interp-edit mode whose Matinee actor has the given group instances. -/
def exampleEditor (GroupInst : List (Option UInterpGroupInst)) : Editor where
  ActiveInterpEditMode := some ⟨some ⟨some ⟨GroupInst⟩⟩⟩
  GetGroupActor := some exampleActor
  ActiveTopLevelWindow := some 1
  ContentBrowserLoads := true
  PushedMenu := 42

/-- A key as the track adds it: nothing selected yet. -/
def exampleKey : FFaceFXTrackKey :=
  ⟨⟨0⟩, FFaceFXSkelMeshComponentId.Default, FFaceFXAnimId.Reset, none, false⟩

/-- A FaceFX track with two keys. -/
def exampleTrack : UFaceFXMatineeControl :=
  ⟨true, [exampleKey, { exampleKey with Time := ⟨5⟩, bLoop := true }]⟩

/-- A helper with a selection cached. -/
def exampleHelper : UFaceFXMatineeControlHelper :=
  { UFaceFXMatineeControlHelper.New with
    KeyframeAddFaceFXAnim := some ⟨11⟩
    KeyframeAddFaceFXAnimId := ⟨"Greetings", "Hello"⟩
    KeyframeAddSkelMeshComponentId := ⟨0, "Head"⟩
    bKeyframeSettingsLoop := true }

/-- The spec's conditions for accepting a track on `Group`: the group has no FaceFX
track, exactly one non-null entry of `MatineeActor->GroupInst` refers to it, that
instance has a group actor, and the actor owns a FaceFX component. -/
def AcceptsTrack (Ed : Editor) (Group : UInterpGroup) : Prop :=
  Group.FindFaceFXTracks = [] ∧
  ∃ Mode InterpEd MatineeActor GrInst Actor,
    Ed.ActiveInterpEditMode = some Mode ∧ Mode.InterpEd = some InterpEd ∧
    InterpEd.GetMatineeActor = some MatineeActor ∧
    groupInstsOf Group MatineeActor.GroupInst = [GrInst] ∧
    GrInst.GetGroupActor = some Actor ∧ Actor.FindFaceFXComponent.isSome = true

/-- No `check` or `CastChecked` of `PreCreateKeyframe` fails and no null component is
dereferenced: the track is a FaceFX track whose outer is a group, and, once actor and
component are found, the edit mode and its `InterpEd` are there and, with a top level
window, the content browser loads and every set-up component is non-null. -/
def PreCreateKeyframeCompletes (Ed : Editor) (Track : UInterpTrack) : Bool :=
  match Track with
  | .Other _ => false
  | .FaceFX TrackFaceFX =>
    TrackFaceFX.OuterIsInterpGroup &&
    match Ed.GetGroupActor.bind (fun Actor => Actor.FindFaceFXComponent) with
    | none => true
    | some FaceFXComponent =>
      (Ed.ActiveInterpEditMode.bind (fun Mode => Mode.InterpEd)).isSome &&
      (Ed.ActiveTopLevelWindow.isNone ||
        (Ed.ContentBrowserLoads &&
          FaceFXComponent.GetSetupSkelMeshComponents.all Option.isSome))

/-- The example editor without an active top level window. -/
def exampleEditorNoWindow : Editor :=
  { exampleEditor [] with ActiveTopLevelWindow := none }

/-- The example editor whose actor's FaceFX component lists a null skeletal mesh
component after a non-null one. -/
def exampleEditorNullComp : Editor :=
  { exampleEditor [] with
    GetGroupActor := some ⟨"Hero", some ⟨[some exampleSkelMeshComp, none], none⟩⟩ }

/-- A callback that ends the popup when it returns: a group or id text commit on Enter
(lines 384 and 404), a pick in the existing-id combo box, or the selection of an asset
that is a FaceFX animation (line 343). -/
def PopupCallback.EndsPopup : PopupCallback → Bool
  | .AnimGroupCommitted _ CommitType => decide (CommitType = ETextCommit.OnEnter)
  | .AnimIdCommitted _ CommitType => decide (CommitType = ETextCommit.OnEnter)
  | .AnimIdComboBoxSelected _ => true
  | .AnimAssetSelected AssetData => (CastFaceFXAnim AssetData.GetAsset).isSome
  | _ => false

/-- The animation id after one callback, as far as committed text goes: a group commit
names the group, an id commit names the name, anything else leaves the id alone. -/
def recordText (Callback : PopupCallback) (Id : FFaceFXAnimId) : FFaceFXAnimId :=
  match Callback with
  | .AnimGroupCommitted Text _ => { Id with Group := FName.ofText Text }
  | .AnimIdCommitted Text _ => { Id with Name := FName.ofText Text }
  | _ => Id

/-- The animation id the text commits of `Callbacks` leave, in order, starting from
`Id`: the last committed group text and the last committed id text. -/
def textCommitted (Callbacks : List PopupCallback) (Id : FFaceFXAnimId) : FFaceFXAnimId :=
  Callbacks.foldl (fun Id Callback => recordText Callback Id) Id

/-- The `InterpEd` of the example editor, as the popup's delegates carry it. -/
def exampleMatinee : IMatineeBase := ⟨some ⟨[]⟩⟩

/-- The helper right after `PreCreateKeyframe` opened the popup in the example editor. -/
def examplePopupHelper : UFaceFXMatineeControlHelper :=
  (PreCreateKeyframe true (exampleEditor []) UFaceFXMatineeControlHelper.New
    (.FaceFX exampleTrack) ⟨0⟩).self

end FaceFXMatinee

namespace FaceFXMatinee

/-! ## `PreCreateTrack`: accept and reject -/

/-- A null entry of `GroupInst` refers to no group. -/
theorem groupInstsOf_cons_none (Group : UInterpGroup)
    (rest : List (Option UInterpGroupInst)) :
    groupInstsOf Group (none :: rest) = groupInstsOf Group rest := by
  simp [groupInstsOf]

/-- A non-null entry of `GroupInst` counts when it refers to the group. -/
theorem groupInstsOf_cons_some (Group : UInterpGroup) (Inst : UInterpGroupInst)
    (rest : List (Option UInterpGroupInst)) :
    groupInstsOf Group (some Inst :: rest) =
      if Inst.Group = some Group.Addr then Inst :: groupInstsOf Group rest
      else groupInstsOf Group rest := by
  by_cases hm : Inst.Group = some Group.Addr <;> simp [groupInstsOf, hm]

/-- The loop of `PreCreateTrack` against the list of matching instances: it stops early
exactly when a second match shows up, and otherwise ends on the single match, if any. -/
theorem findGroupInst_eq (Group : UInterpGroup) (GroupInst : List (Option UInterpGroupInst))
    (GrInst : Option UInterpGroupInst) :
    findGroupInst Group GroupInst GrInst =
      match GrInst, groupInstsOf Group GroupInst with
      | none, [] => some none
      | none, [Inst] => some (some Inst)
      | none, _ :: _ :: _ => none
      | some Found, [] => some (some Found)
      | some _, _ :: _ => none := by
  induction GroupInst generalizing GrInst with
  | nil => cases GrInst <;> simp [findGroupInst, groupInstsOf]
  | cons head rest ih =>
    cases head with
    | none =>
      rw [groupInstsOf_cons_none]
      simpa [findGroupInst] using ih GrInst
    | some Inst =>
      rw [groupInstsOf_cons_some]
      by_cases hm : Inst.Group = some Group.Addr
      · cases GrInst with
        | some Found => simp [findGroupInst, hm]
        | none =>
          simp only [findGroupInst, hm, if_true, ih (some Inst)]
          rcases groupInstsOf Group rest with _ | ⟨a, l⟩ <;> rfl
      · simp only [findGroupInst, hm, if_false]
        exact ih GrInst

/-- C1: whenever `PreCreateTrack` returns, it returns true exactly when the group has no
FaceFX track, exactly one non-null entry of `MatineeActor->GroupInst` refers to the
group, that instance has a group actor and the actor owns a FaceFX component; it
returns false in every other case. -/
theorem PreCreateTrack_true_iff (Ed : Editor) (Group : UInterpGroup)
    (TrackDef : Option UInterpTrack) (bDuplicatingTrack bAllowPrompts b : Bool)
    (h : (PreCreateTrack Ed Group TrackDef bDuplicatingTrack bAllowPrompts).status
      = .returned b) :
    (b = true ↔ AcceptsTrack Ed Group) ∧ (b = false ↔ ¬ AcceptsTrack Ed Group) := by
  have key : b = true ↔ AcceptsTrack Ed Group := by
    unfold PreCreateTrack at h
    unfold AcceptsTrack
    rcases hMode : Ed.ActiveInterpEditMode with _ | Mode
    · simp [hMode] at h
    rcases hEd : Mode.InterpEd with _ | InterpEd
    · simp [hMode, hEd] at h
    simp only [hMode, hEd] at h
    by_cases hT : (Group.FindFaceFXTracks).length > 0
    · simp only [hT, if_true, Status.returned.injEq] at h
      subst h
      refine ⟨fun hb => Bool.noConfusion hb, ?_⟩
      rintro ⟨h0, -⟩
      simp [h0] at hT
    have hT0 : Group.FindFaceFXTracks = [] := by
      cases hl : Group.FindFaceFXTracks with
      | nil => rfl
      | cons a l => simp [hl] at hT
    rcases hMA : InterpEd.GetMatineeActor with _ | MatineeActor
    · simp [hT, hMA] at h
    simp only [hT, if_false, hMA, findGroupInst_eq] at h
    rcases hG : groupInstsOf Group MatineeActor.GroupInst with _ | ⟨Inst, _ | ⟨Inst2, more⟩⟩
    · simp [hG] at h
    · simp only [hG] at h
      rcases hA : Inst.GetGroupActor with _ | Actor
      · simp only [hA, Status.returned.injEq] at h
        subst h
        refine ⟨fun hb => Bool.noConfusion hb, ?_⟩
        rintro ⟨-, M, I, A, G, Ac, h1, h2, h3, h4, h5, -⟩
        cases h1
        rw [hEd] at h2; cases h2
        rw [hMA] at h3; cases h3
        rw [hG] at h4; cases h4
        rw [hA] at h5; cases h5
      · rcases hC : Actor.FindFaceFXComponent with _ | Comp
        · simp only [hA, hC, Status.returned.injEq] at h
          subst h
          refine ⟨fun hb => Bool.noConfusion hb, ?_⟩
          rintro ⟨-, M, I, A, G, Ac, h1, h2, h3, h4, h5, h6⟩
          cases h1
          rw [hEd] at h2; cases h2
          rw [hMA] at h3; cases h3
          rw [hG] at h4; cases h4
          rw [hA] at h5; cases h5
          simp [hC] at h6
        · simp only [hA, hC, Status.returned.injEq] at h
          subst h
          refine ⟨fun _ => ⟨hT0, Mode, InterpEd, MatineeActor, Inst, Actor, rfl, hEd, hMA,
            hG, hA, by simp [hC]⟩, fun _ => rfl⟩
    · simp only [hG, Status.returned.injEq] at h
      subst h
      refine ⟨fun hb => Bool.noConfusion hb, ?_⟩
      rintro ⟨-, M, I, A, G, Ac, h1, h2, h3, h4, -⟩
      cases h1
      rw [hEd] at h2; cases h2
      rw [hMA] at h3; cases h3
      rw [hG] at h4; cases h4
  refine ⟨key, ?_⟩
  rw [← key]
  cases b <;> simp

/-- C1, at a group with one bound actor that owns a FaceFX component: accepted. -/
theorem PreCreateTrack_true_iff_witness :
    (true = true ↔
      AcceptsTrack (exampleEditor [none, some ⟨some 7, some exampleActor⟩, some ⟨some 8, none⟩])
        exampleGroup) ∧
    (true = false ↔
      ¬ AcceptsTrack (exampleEditor [none, some ⟨some 7, some exampleActor⟩, some ⟨some 8, none⟩])
        exampleGroup) :=
  PreCreateTrack_true_iff _ exampleGroup none false true true (by decide)

/-- C2, as stated, fails: a group without a FaceFX track to which no entry of
`GroupInst` refers makes `check(GrInst)` fail; nothing is returned and nothing logged. -/
theorem PreCreateTrack_no_instance_check_fails :
    exampleGroup.FindFaceFXTracks = [] ∧
    groupInstsOf exampleGroup [none, some ⟨some 8, some exampleActor⟩] = [] ∧
    PreCreateTrack (exampleEditor [none, some ⟨some 8, some exampleActor⟩]) exampleGroup none
      false true = ⟨[], .checkFailed⟩ ∧
    (PreCreateTrack (exampleEditor [none, some ⟨some 8, some exampleActor⟩]) exampleGroup none
      false true).status ≠ .returned false := by
  decide

/-- C2, amended: with the editor's mode, `InterpEd` and Matinee actor in place and no
FaceFX track in the group, a group whose single referring entry has no group actor is
rejected (`false`, the "Actor missing" warning, the dialog when prompts are allowed);
a group to which no entry refers fails `check(GrInst)`. -/
theorem PreCreateTrack_unbound_group (Ed : Editor) (Group : UInterpGroup)
    (TrackDef : Option UInterpTrack) (bDuplicatingTrack bAllowPrompts : Bool)
    (Mode : FEdModeInterpEdit) (InterpEd : IMatineeBase) (MatineeActor : AMatineeActor)
    (hMode : Ed.ActiveInterpEditMode = some Mode) (hEd : Mode.InterpEd = some InterpEd)
    (hMA : InterpEd.GetMatineeActor = some MatineeActor)
    (hT : Group.FindFaceFXTracks = []) :
    (∀ GrInst, groupInstsOf Group MatineeActor.GroupInst = [GrInst] →
      GrInst.GetGroupActor = none →
      PreCreateTrack Ed Group TrackDef bDuplicatingTrack bAllowPrompts =
        ⟨reject .ActorMissing .MatineeFaceFXMissingActor bAllowPrompts, .returned false⟩) ∧
    (groupInstsOf Group MatineeActor.GroupInst = [] →
      PreCreateTrack Ed Group TrackDef bDuplicatingTrack bAllowPrompts =
        ⟨[], .checkFailed⟩) := by
  constructor
  · intro GrInst hG hA
    simp [PreCreateTrack, hMode, hEd, hMA, hT, findGroupInst_eq, hG, hA]
  · intro hG
    simp [PreCreateTrack, hMode, hEd, hMA, hT, findGroupInst_eq, hG]

/-- C2, amended, at a group whose only instance has no actor, and at a group without
an instance. -/
theorem PreCreateTrack_unbound_group_witness :
    (∀ GrInst, groupInstsOf exampleGroup [some ⟨some 7, none⟩] = [GrInst] →
      GrInst.GetGroupActor = none →
      PreCreateTrack (exampleEditor [some ⟨some 7, none⟩]) exampleGroup none false true =
        ⟨reject .ActorMissing .MatineeFaceFXMissingActor true, .returned false⟩) ∧
    (groupInstsOf exampleGroup [some ⟨some 7, none⟩] = [] →
      PreCreateTrack (exampleEditor [some ⟨some 7, none⟩]) exampleGroup none false true =
        ⟨[], .checkFailed⟩) :=
  PreCreateTrack_unbound_group (exampleEditor [some ⟨some 7, none⟩]) exampleGroup none false
    true ⟨some ⟨some ⟨[some ⟨some 7, none⟩]⟩⟩⟩ ⟨some ⟨[some ⟨some 7, none⟩]⟩⟩
    ⟨[some ⟨some 7, none⟩]⟩ rfl rfl rfl (by decide)

/-- C3: on every path where `PreCreateTrack` returns false exactly one warning is
logged and the modal error dialog is shown once when `bAllowPrompts` is true and not at
all when it is false; where it returns true nothing is logged and no dialog is shown. -/
theorem PreCreateTrack_reports (Ed : Editor) (Group : UInterpGroup)
    (TrackDef : Option UInterpTrack) (bDuplicatingTrack bAllowPrompts : Bool) :
    ((PreCreateTrack Ed Group TrackDef bDuplicatingTrack bAllowPrompts).status
        = .returned false →
      countWarnings (PreCreateTrack Ed Group TrackDef bDuplicatingTrack bAllowPrompts).effects
        = 1 ∧
      countErrorDialogs
        (PreCreateTrack Ed Group TrackDef bDuplicatingTrack bAllowPrompts).effects
        = if bAllowPrompts = true then 1 else 0) ∧
    ((PreCreateTrack Ed Group TrackDef bDuplicatingTrack bAllowPrompts).status
        = .returned true →
      countWarnings (PreCreateTrack Ed Group TrackDef bDuplicatingTrack bAllowPrompts).effects
        = 0 ∧
      countErrorDialogs
        (PreCreateTrack Ed Group TrackDef bDuplicatingTrack bAllowPrompts).effects = 0) := by
  unfold PreCreateTrack
  cases bAllowPrompts <;> (repeat' split) <;>
    simp_all [reject, countWarnings, countErrorDialogs]

/-- C3, on the four rejecting paths and the accepting one, with prompts allowed. -/
theorem PreCreateTrack_reports_witness :
    (PreCreateTrack (exampleEditor []) ⟨7, "G", [.FaceFX exampleTrack]⟩ none false true =
      ⟨[.LogWarning (.GroupAlreadyContainsTrack "G"), .ShowError .MatineeFaceFXAlreadyHasTrack],
        .returned false⟩) ∧
    (PreCreateTrack (exampleEditor [some ⟨some 7, none⟩, some ⟨some 7, none⟩]) exampleGroup none
      false true =
      ⟨[.LogWarning (.GroupHasMoreThanOneActor "HeroGroup"),
        .ShowError .MatineeFaceFXAlreadyHadGroupActor], .returned false⟩) ∧
    (PreCreateTrack (exampleEditor [some ⟨some 7, some exampleBareActor⟩]) exampleGroup none
      false true =
      ⟨[.LogWarning (.ComponentMissing "Prop"), .ShowError .MatineeFaceFXMissingComponent],
        .returned false⟩) ∧
    (PreCreateTrack (exampleEditor [some ⟨some 7, none⟩]) exampleGroup none false false =
      ⟨[.LogWarning .ActorMissing], .returned false⟩) ∧
    (PreCreateTrack (exampleEditor [some ⟨some 7, some exampleActor⟩]) exampleGroup none false
      true = ⟨[], .returned true⟩) ∧
    ((PreCreateTrack (exampleEditor [some ⟨some 7, none⟩]) exampleGroup none false true).status
        = .returned false →
      countWarnings
        (PreCreateTrack (exampleEditor [some ⟨some 7, none⟩]) exampleGroup none false true).effects
        = 1 ∧
      countErrorDialogs
        (PreCreateTrack (exampleEditor [some ⟨some 7, none⟩]) exampleGroup none false true).effects
        = if true = true then 1 else 0) :=
  ⟨by decide, by decide, by decide, by decide, by decide,
    (PreCreateTrack_reports (exampleEditor [some ⟨some 7, none⟩]) exampleGroup none false true).1⟩

/-! ## `PostCreateKeyframe`: the cached selection lands in one key -/

/-- What `PostCreateKeyframe` does on a FaceFX track with `KeyIndex` in range. -/
theorem PostCreateKeyframe_eq (L : Bool) (self : UFaceFXMatineeControlHelper)
    (T : UFaceFXMatineeControl) (KeyIndex : Int) (Key : FFaceFXTrackKey)
    (h0 : 0 ≤ KeyIndex) (hKey : T.Keys[KeyIndex.toNat]? = some Key) :
    PostCreateKeyframe L self (.FaceFX T) KeyIndex =
      ⟨ResetCachedValues self,
        .FaceFX ⟨T.OuterIsInterpGroup, T.Keys.set KeyIndex.toNat (copySelection L self Key)⟩,
        .returned ()⟩ := by
  have hn : ¬ KeyIndex < 0 := not_lt.mpr h0
  simp [PostCreateKeyframe, hn, hKey]

/-- An index in range picks a key. -/
theorem key_at_index (T : UFaceFXMatineeControl) (KeyIndex : Int) (h0 : 0 ≤ KeyIndex)
    (h1 : KeyIndex < T.Keys.length) : ∃ Key, T.Keys[KeyIndex.toNat]? = some Key := by
  have hlt : KeyIndex.toNat < T.Keys.length := by omega
  exact ⟨T.Keys[KeyIndex.toNat], List.getElem?_eq_getElem hlt⟩

/-- C4: for `0 ≤ KeyIndex < Keys.Num()`, `PostCreateKeyframe` returns and leaves a track
with as many keys as before, in which every key but the one at `KeyIndex` is as it
was, and the key at `KeyIndex` carries the helper's cached component id, animation,
animation id (with animation linkage) and loop flag as they were before the call,
its time (and, without animation linkage, its animation id) untouched. -/
theorem PostCreateKeyframe_writes_key (L : Bool) (self : UFaceFXMatineeControlHelper)
    (T : UFaceFXMatineeControl) (KeyIndex : Int)
    (h0 : 0 ≤ KeyIndex) (h1 : KeyIndex < T.Keys.length) :
    (PostCreateKeyframe L self (.FaceFX T) KeyIndex).status = .returned () ∧
    ∃ T2 Key NewKey,
      (PostCreateKeyframe L self (.FaceFX T) KeyIndex).Track = .FaceFX T2 ∧
      T2.OuterIsInterpGroup = T.OuterIsInterpGroup ∧
      T2.Keys.length = T.Keys.length ∧
      (∀ j : Nat, j ≠ KeyIndex.toNat → T2.Keys[j]? = T.Keys[j]?) ∧
      T.Keys[KeyIndex.toNat]? = some Key ∧
      T2.Keys[KeyIndex.toNat]? = some NewKey ∧
      NewKey.SkelMeshComponentId = self.KeyframeAddSkelMeshComponentId ∧
      NewKey.Animation = self.KeyframeAddFaceFXAnim ∧
      (L = true → NewKey.AnimationId = self.KeyframeAddFaceFXAnimId) ∧
      (L = false → NewKey.AnimationId = Key.AnimationId) ∧
      NewKey.bLoop = self.bKeyframeSettingsLoop ∧
      NewKey.Time = Key.Time := by
  obtain ⟨Key, hKey⟩ := key_at_index T KeyIndex h0 h1
  have hlt : KeyIndex.toNat < T.Keys.length := by omega
  rw [PostCreateKeyframe_eq L self T KeyIndex Key h0 hKey]
  refine ⟨rfl, _, Key, copySelection L self Key, rfl, rfl, by simp, ?_, hKey, ?_, rfl, rfl,
    ?_, ?_, rfl, rfl⟩
  · intro j hj
    simp [List.getElem?_set, Ne.symm hj]
  · simp [List.getElem?_set, hlt]
  · intro hL; simp [hL, copySelection]
  · intro hL; simp [hL, copySelection]

/-- C4, at the second key of a two-key track. -/
theorem PostCreateKeyframe_writes_key_witness :
    (PostCreateKeyframe true exampleHelper (.FaceFX exampleTrack) 1).status = .returned () ∧
    ∃ T2 Key NewKey,
      (PostCreateKeyframe true exampleHelper (.FaceFX exampleTrack) 1).Track = .FaceFX T2 ∧
      T2.OuterIsInterpGroup = exampleTrack.OuterIsInterpGroup ∧
      T2.Keys.length = exampleTrack.Keys.length ∧
      (∀ j : Nat, j ≠ (1 : Int).toNat → T2.Keys[j]? = exampleTrack.Keys[j]?) ∧
      exampleTrack.Keys[(1 : Int).toNat]? = some Key ∧
      T2.Keys[(1 : Int).toNat]? = some NewKey ∧
      NewKey.SkelMeshComponentId = exampleHelper.KeyframeAddSkelMeshComponentId ∧
      NewKey.Animation = exampleHelper.KeyframeAddFaceFXAnim ∧
      (true = true → NewKey.AnimationId = exampleHelper.KeyframeAddFaceFXAnimId) ∧
      (true = false → NewKey.AnimationId = Key.AnimationId) ∧
      NewKey.bLoop = exampleHelper.bKeyframeSettingsLoop ∧
      NewKey.Time = Key.Time :=
  PostCreateKeyframe_writes_key true exampleHelper exampleTrack 1 (by decide) (by decide)

/-! ## The cached selection is reset before a popup and consumed once -/

/-- `ResetCachedValues` leaves the cached selection reset. -/
theorem IsReset_ResetCachedValues (self : UFaceFXMatineeControlHelper) :
    IsReset (ResetCachedValues self) :=
  ⟨rfl, rfl, rfl, rfl⟩

/-- `PreCreateKeyframe` only ever touches the popup members after its reset. -/
theorem PreCreateKeyframe_self (L : Bool) (Ed : Editor) (self : UFaceFXMatineeControlHelper)
    (Track : UInterpTrack) (fTime : FloatBits) :
    ∃ Entries AnimIds Menu Selection,
      (PreCreateKeyframe L Ed self Track fTime).self =
        { ResetCachedValues self with
          SkelMeshSelectionComboBoxEntries := Entries
          KeyframeAddFaceDXExistingAnimIds := AnimIds
          EntryPopupMenu := Menu
          SkelMeshComponentSelection := Selection } := by
  unfold PreCreateKeyframe
  dsimp only
  (repeat' split) <;> exact ⟨_, _, _, _, rfl⟩

/-- After `PreCreateKeyframe`, on whatever path, the cached selection is reset. -/
theorem IsReset_PreCreateKeyframe (L : Bool) (Ed : Editor)
    (self : UFaceFXMatineeControlHelper) (Track : UInterpTrack) (fTime : FloatBits) :
    IsReset (PreCreateKeyframe L Ed self Track fTime).self := by
  obtain ⟨Entries, AnimIds, Menu, Selection, h⟩ := PreCreateKeyframe_self L Ed self Track fTime
  rw [h]
  exact ⟨rfl, rfl, rfl, rfl⟩

/-- C5: `PreCreateKeyframe` resets the cached selection first, on every path (what it
leaves behind does not depend on the selection cached before, and the selection is in
its reset state afterwards); `PostCreateKeyframe` leaves it reset after copying, so a
second `PostCreateKeyframe` with no callback in between writes a null animation, no
loop, the default component id and (with animation linkage) the empty animation id. -/
theorem cached_selection_reset_consumed_once (L : Bool) (Ed : Editor)
    (self : UFaceFXMatineeControlHelper) (Track : UInterpTrack) (fTime : FloatBits)
    (T : UFaceFXMatineeControl) (KeyIndex KeyIndex2 : Int)
    (h0 : 0 ≤ KeyIndex) (h1 : KeyIndex < T.Keys.length)
    (h2 : 0 ≤ KeyIndex2) (h3 : KeyIndex2 < T.Keys.length) :
    IsReset (PreCreateKeyframe L Ed self Track fTime).self ∧
    PreCreateKeyframe L Ed self Track fTime
      = PreCreateKeyframe L Ed (ResetCachedValues self) Track fTime ∧
    IsReset (PostCreateKeyframe L self (.FaceFX T) KeyIndex).self ∧
    (PostCreateKeyframe L (PostCreateKeyframe L self (.FaceFX T) KeyIndex).self
      (PostCreateKeyframe L self (.FaceFX T) KeyIndex).Track KeyIndex2).status
        = .returned () ∧
    IsReset (PostCreateKeyframe L (PostCreateKeyframe L self (.FaceFX T) KeyIndex).self
      (PostCreateKeyframe L self (.FaceFX T) KeyIndex).Track KeyIndex2).self ∧
    ∃ T2 Key2,
      (PostCreateKeyframe L (PostCreateKeyframe L self (.FaceFX T) KeyIndex).self
        (PostCreateKeyframe L self (.FaceFX T) KeyIndex).Track KeyIndex2).Track
          = .FaceFX T2 ∧
      T2.Keys[KeyIndex2.toNat]? = some Key2 ∧
      Key2.Animation = none ∧ Key2.bLoop = false ∧
      Key2.SkelMeshComponentId = FFaceFXSkelMeshComponentId.Default ∧
      (L = true → Key2.AnimationId = FFaceFXAnimId.Reset) := by
  refine ⟨IsReset_PreCreateKeyframe L Ed self Track fTime, rfl, ?_⟩
  obtain ⟨Key, hKey⟩ := key_at_index T KeyIndex h0 h1
  rw [PostCreateKeyframe_eq L self T KeyIndex Key h0 hKey]
  refine ⟨IsReset_ResetCachedValues self, ?_⟩
  have hlen : KeyIndex2 < (⟨T.OuterIsInterpGroup,
      T.Keys.set KeyIndex.toNat (copySelection L self Key)⟩ : UFaceFXMatineeControl).Keys.length := by
    simpa using h3
  obtain ⟨Old, hOld⟩ := key_at_index _ KeyIndex2 h2 hlen
  have hlt : KeyIndex2.toNat < T.Keys.length := by omega
  rw [PostCreateKeyframe_eq L _ _ KeyIndex2 Old h2 hOld]
  refine ⟨rfl, IsReset_ResetCachedValues _, _, copySelection L (ResetCachedValues self) Old,
    rfl, ?_, rfl, rfl, rfl, ?_⟩
  · simp only [List.getElem?_set, List.length_set, hlt, if_true]
  · intro hL; simp [hL, ResetCachedValues, copySelection]

/-- C5, with a selection cached and two keys finalized in a row. -/
theorem cached_selection_reset_consumed_once_witness :
    (PreCreateKeyframe true (exampleEditor []) exampleHelper (.FaceFX exampleTrack) ⟨0⟩).self
      = { UFaceFXMatineeControlHelper.New with
          SkelMeshSelectionComboBoxEntries :=
            [⟨FFaceFXSkelMeshComponentId.Default, "<Default>"⟩,
              ⟨⟨0, "Head"⟩, "Head  [Mesh: SK_Head]"⟩, ⟨⟨1, "Body"⟩, "Body"⟩]
          EntryPopupMenu := some 42
          SkelMeshComponentSelection := some "<Default>" } ∧
    (PostCreateKeyframe true exampleHelper (.FaceFX exampleTrack) 0).Track
      = .FaceFX ⟨true, [⟨⟨0⟩, ⟨0, "Head"⟩, ⟨"Greetings", "Hello"⟩, some ⟨11⟩, true⟩,
          { exampleKey with Time := ⟨5⟩, bLoop := true }]⟩ ∧
    (PostCreateKeyframe true (PostCreateKeyframe true exampleHelper (.FaceFX exampleTrack) 0).self
      (PostCreateKeyframe true exampleHelper (.FaceFX exampleTrack) 0).Track 1).Track
      = .FaceFX ⟨true, [⟨⟨0⟩, ⟨0, "Head"⟩, ⟨"Greetings", "Hello"⟩, some ⟨11⟩, true⟩,
          { exampleKey with Time := ⟨5⟩ }]⟩ ∧
    IsReset (PostCreateKeyframe true exampleHelper (.FaceFX exampleTrack) 0).self :=
  ⟨by decide, by decide, by decide,
    (cached_selection_reset_consumed_once true (exampleEditor []) exampleHelper
      (.FaceFX exampleTrack) ⟨0⟩ exampleTrack 0 1 (by decide) (by decide) (by decide)
      (by decide)).2.2.1⟩

/-! ## `PreCreateKeyframe`: the popup -/

/-- The fill loop runs to its end exactly when no component is null. -/
theorem fillSkelMeshEntries_snd (Comps : List (Option USkeletalMeshComponent)) (i : Nat)
    (Entries : List FFaceFXSkelMeshSelection) :
    (fillSkelMeshEntries Comps i Entries).2 = Comps.all Option.isSome := by
  induction Comps generalizing i Entries with
  | nil => rfl
  | cons head rest ih =>
    cases head with
    | none => rfl
    | some Comp => simpa [fillSkelMeshEntries] using ih (i + 1) _

/-- On non-null components the fill loop appends one entry per component, in order:
index, name, and the name with the mesh in brackets when there is a mesh. -/
theorem fillSkelMeshEntries_of_nonnull (Comps : List USkeletalMeshComponent) (i : Nat)
    (Entries : List FFaceFXSkelMeshSelection) :
    fillSkelMeshEntries (Comps.map some) i Entries =
      (Entries ++ (Comps.enumFrom i).map fun p =>
        ⟨⟨(p.1 : Int), p.2.Name⟩, skelMeshEntryText (some p.2)⟩, true) := by
  induction Comps generalizing i Entries with
  | nil => simp [fillSkelMeshEntries]
  | cons head rest ih =>
    simp [fillSkelMeshEntries, ih, List.enumFrom]

/-- `PreCreateKeyframe` on the path that reaches `PushMenu`. -/
theorem PreCreateKeyframe_popup_eq (L : Bool) (Ed : Editor)
    (self : UFaceFXMatineeControlHelper) (T : UFaceFXMatineeControl) (fTime : FloatBits)
    (Actor : AActor) (Comp : UFaceFXComponent) (Mode : FEdModeInterpEdit)
    (InterpEd : IMatineeBase) (Parent : Nat)
    (hOuter : T.OuterIsInterpGroup = true)
    (hActor : Ed.GetGroupActor = some Actor) (hComp : Actor.FindFaceFXComponent = some Comp)
    (hMode : Ed.ActiveInterpEditMode = some Mode) (hEd : Mode.InterpEd = some InterpEd)
    (hParent : Ed.ActiveTopLevelWindow = some Parent) (hBrowser : Ed.ContentBrowserLoads = true)
    (hNonNull : ∀ c ∈ Comp.GetSetupSkelMeshComponents, c ≠ none) :
    PreCreateKeyframe L Ed self (.FaceFX T) fTime =
      ⟨{ ResetCachedValues self with
          SkelMeshComponentSelection := some "<Default>"
          SkelMeshSelectionComboBoxEntries :=
            (fillSkelMeshEntries Comp.GetSetupSkelMeshComponents 0
              [⟨FFaceFXSkelMeshComponentId.Default, "<Default>"⟩]).1
          KeyframeAddFaceDXExistingAnimIds :=
            if L then existingAnimIds Comp else self.KeyframeAddFaceDXExistingAnimIds
          EntryPopupMenu := some Ed.PushedMenu },
        [.PushMenu Parent], .returned false⟩ := by
  have hAll : (fillSkelMeshEntries Comp.GetSetupSkelMeshComponents 0
      [⟨FFaceFXSkelMeshComponentId.Default, "<Default>"⟩]).2 = true := by
    rw [fillSkelMeshEntries_snd, List.all_eq_true]
    intro c hc
    cases c with
    | none => exact absurd rfl (hNonNull none hc)
    | some _ => rfl
  cases L <;>
    simp [PreCreateKeyframe, hOuter, hActor, hComp, hMode, hEd, hParent, hBrowser, hAll,
      ResetCachedValues]

/-- C6, as stated, fails: the group actor is found and owns a FaceFX component, but
there is no active top level window; no menu is pushed, `EntryPopupMenu` stays null,
and nothing is logged. -/
theorem PreCreateKeyframe_no_window_no_popup :
    exampleEditorNoWindow.GetGroupActor = some exampleActor ∧
    exampleActor.FindFaceFXComponent = some exampleComponent ∧
    PreCreateKeyframe true exampleEditorNoWindow UFaceFXMatineeControlHelper.New
      (.FaceFX exampleTrack) ⟨0⟩ = ⟨UFaceFXMatineeControlHelper.New, [], .returned false⟩ ∧
    (PreCreateKeyframe true exampleEditorNoWindow UFaceFXMatineeControlHelper.New
      (.FaceFX exampleTrack) ⟨0⟩).self.EntryPopupMenu = none := by
  decide

/-- C6, amended: for a FaceFX track whose outer is a group, `PreCreateKeyframe` pushes
the menu (once, on the active top level window) and stores it in `EntryPopupMenu`
whenever the group actor is found and owns a FaceFX component, the edit mode and its
`InterpEd` are there, the application has an active top level window, the content
browser loads and the set-up skeletal mesh components are non-null; with actor and
component found but no active top level window it opens no popup and logs nothing;
with the actor missing or lacking the component it opens no popup, leaves
`EntryPopupMenu` alone and logs exactly one warning. -/
theorem PreCreateKeyframe_opens_popup (L : Bool) (Ed : Editor)
    (self : UFaceFXMatineeControlHelper) (T : UFaceFXMatineeControl) (fTime : FloatBits)
    (hOuter : T.OuterIsInterpGroup = true) :
    (∀ Actor Comp Mode InterpEd Parent,
      Ed.GetGroupActor = some Actor → Actor.FindFaceFXComponent = some Comp →
      Ed.ActiveInterpEditMode = some Mode → Mode.InterpEd = some InterpEd →
      Ed.ActiveTopLevelWindow = some Parent → Ed.ContentBrowserLoads = true →
      (∀ c ∈ Comp.GetSetupSkelMeshComponents, c ≠ none) →
      (PreCreateKeyframe L Ed self (.FaceFX T) fTime).effects = [.PushMenu Parent] ∧
      (PreCreateKeyframe L Ed self (.FaceFX T) fTime).self.EntryPopupMenu
        = some Ed.PushedMenu ∧
      (PreCreateKeyframe L Ed self (.FaceFX T) fTime).status = .returned false) ∧
    (∀ Actor Comp Mode InterpEd,
      Ed.GetGroupActor = some Actor → Actor.FindFaceFXComponent = some Comp →
      Ed.ActiveInterpEditMode = some Mode → Mode.InterpEd = some InterpEd →
      Ed.ActiveTopLevelWindow = none →
      (PreCreateKeyframe L Ed self (.FaceFX T) fTime).effects = [] ∧
      (PreCreateKeyframe L Ed self (.FaceFX T) fTime).self.EntryPopupMenu
        = self.EntryPopupMenu ∧
      (PreCreateKeyframe L Ed self (.FaceFX T) fTime).status = .returned false) ∧
    ((Ed.GetGroupActor = none ∨
        ∃ Actor, Ed.GetGroupActor = some Actor ∧ Actor.FindFaceFXComponent = none) →
      countPushMenu (PreCreateKeyframe L Ed self (.FaceFX T) fTime).effects = 0 ∧
      (PreCreateKeyframe L Ed self (.FaceFX T) fTime).self.EntryPopupMenu
        = self.EntryPopupMenu ∧
      countWarnings (PreCreateKeyframe L Ed self (.FaceFX T) fTime).effects = 1 ∧
      (PreCreateKeyframe L Ed self (.FaceFX T) fTime).status = .returned false) := by
  refine ⟨?_, ?_, ?_⟩
  · intro Actor Comp Mode InterpEd Parent hA hC hM hI hP hB hN
    rw [PreCreateKeyframe_popup_eq L Ed self T fTime Actor Comp Mode InterpEd Parent hOuter hA
      hC hM hI hP hB hN]
    exact ⟨rfl, rfl, rfl⟩
  · intro Actor Comp Mode InterpEd hA hC hM hI hP
    simp [PreCreateKeyframe, hOuter, hA, hC, hM, hI, hP, ResetCachedValues]
  · rintro (hA | ⟨Actor, hA, hC⟩)
    · simp [PreCreateKeyframe, hOuter, hA, ResetCachedValues, countPushMenu, countWarnings]
    · simp [PreCreateKeyframe, hOuter, hA, hC, ResetCachedValues, countPushMenu,
        countWarnings]

/-- C6, amended, at the example editor: the popup opens on window 1 and is stored. -/
theorem PreCreateKeyframe_opens_popup_witness :
    exampleTrack.OuterIsInterpGroup = true ∧
    (PreCreateKeyframe true (exampleEditor []) exampleHelper (.FaceFX exampleTrack) ⟨0⟩).effects
      = [.PushMenu 1] ∧
    (PreCreateKeyframe true (exampleEditor []) exampleHelper
      (.FaceFX exampleTrack) ⟨0⟩).self.EntryPopupMenu = some 42 ∧
    (PreCreateKeyframe true (exampleEditor []) exampleHelper (.FaceFX exampleTrack) ⟨0⟩).status
      = .returned false :=
  ⟨rfl,
    (PreCreateKeyframe_opens_popup true (exampleEditor []) exampleHelper exampleTrack ⟨0⟩ rfl).1
      exampleActor exampleComponent ⟨some ⟨some ⟨[]⟩⟩⟩ ⟨some ⟨[]⟩⟩ 1 rfl rfl rfl rfl rfl rfl
      (by decide)⟩

/-- C9: a null entry among the set-up skeletal mesh components is dereferenced at
`SkelMeshComp->GetFName()` (line 234) before the null test of line 235: the loop stops
there, no entry with the text "Unknown" is made and the popup is never pushed. -/
theorem PreCreateKeyframe_null_component_dereferenced :
    PreCreateKeyframe true exampleEditorNullComp UFaceFXMatineeControlHelper.New
      (.FaceFX exampleTrack) ⟨0⟩ =
      ⟨{ UFaceFXMatineeControlHelper.New with
          SkelMeshComponentSelection := some "<Default>"
          SkelMeshSelectionComboBoxEntries :=
            [⟨FFaceFXSkelMeshComponentId.Default, "<Default>"⟩,
              ⟨⟨0, "Head"⟩, "Head  [Mesh: SK_Head]"⟩] },
        [], .nullDereference⟩ ∧
    skelMeshEntryText none = "Unknown" := by
  decide

/-- On non-null components the popup path leaves the default entry followed by one
entry per component in `SkelMeshSelectionComboBoxEntries`, whatever was there before. -/
theorem PreCreateKeyframe_entries_of_nonnull (L : Bool) (Ed : Editor)
    (self : UFaceFXMatineeControlHelper) (T : UFaceFXMatineeControl) (fTime : FloatBits)
    (Actor : AActor) (Comps : List USkeletalMeshComponent)
    (Character : Option UFaceFXCharacter) (Mode : FEdModeInterpEdit)
    (InterpEd : IMatineeBase) (Parent : Nat)
    (hOuter : T.OuterIsInterpGroup = true)
    (hActor : Ed.GetGroupActor = some Actor)
    (hComp : Actor.FindFaceFXComponent = some ⟨Comps.map some, Character⟩)
    (hMode : Ed.ActiveInterpEditMode = some Mode) (hEd : Mode.InterpEd = some InterpEd)
    (hParent : Ed.ActiveTopLevelWindow = some Parent)
    (hBrowser : Ed.ContentBrowserLoads = true) :
    (PreCreateKeyframe L Ed self (.FaceFX T) fTime).self.SkelMeshSelectionComboBoxEntries =
      ⟨FFaceFXSkelMeshComponentId.Default, "<Default>"⟩ ::
        (Comps.enumFrom 0).map fun p =>
          ⟨⟨(p.1 : Int), p.2.Name⟩, skelMeshEntryText (some p.2)⟩ := by
  rw [PreCreateKeyframe_popup_eq L Ed self T fTime Actor _ Mode InterpEd Parent hOuter hActor
    hComp hMode hEd hParent hBrowser (by simp)]
  simp [fillSkelMeshEntries_of_nonnull]

/-- C10: `PreCreateKeyframe` never returns true: whatever the track and the time, a
value it returns is false; it does return (false) exactly when none of its checks
fails and no null component is dereferenced, and the path that pushes the popup menu
is one on which it returns false. -/
theorem PreCreateKeyframe_returns_false (L : Bool) (Ed : Editor)
    (self : UFaceFXMatineeControlHelper) (Track : UInterpTrack) (fTime : FloatBits) :
    (∀ b, (PreCreateKeyframe L Ed self Track fTime).status = .returned b → b = false) ∧
    ((PreCreateKeyframe L Ed self Track fTime).status = .returned false ↔
      PreCreateKeyframeCompletes Ed Track = true) ∧
    (0 < countPushMenu (PreCreateKeyframe L Ed self Track fTime).effects →
      (PreCreateKeyframe L Ed self Track fTime).status = .returned false) := by
  cases Track with
  | Other Addr => simp [PreCreateKeyframe, PreCreateKeyframeCompletes, countPushMenu]
  | FaceFX T =>
    cases hO : T.OuterIsInterpGroup
    · simp [PreCreateKeyframe, PreCreateKeyframeCompletes, hO, countPushMenu]
    rcases hA : Ed.GetGroupActor with _ | Actor
    · simp [PreCreateKeyframe, PreCreateKeyframeCompletes, hO, hA, countPushMenu]
    rcases hC : Actor.FindFaceFXComponent with _ | Comp
    · simp [PreCreateKeyframe, PreCreateKeyframeCompletes, hO, hA, hC, countPushMenu]
    rcases hM : Ed.ActiveInterpEditMode with _ | Mode
    · simp [PreCreateKeyframe, PreCreateKeyframeCompletes, hO, hA, hC, hM, countPushMenu]
    rcases hI : Mode.InterpEd with _ | InterpEd
    · simp [PreCreateKeyframe, PreCreateKeyframeCompletes, hO, hA, hC, hM, hI, countPushMenu]
    rcases hP : Ed.ActiveTopLevelWindow with _ | Parent
    · simp [PreCreateKeyframe, PreCreateKeyframeCompletes, hO, hA, hC, hM, hI, hP,
        countPushMenu]
    cases hB : Ed.ContentBrowserLoads
    · simp [PreCreateKeyframe, PreCreateKeyframeCompletes, hO, hA, hC, hM, hI, hP, hB,
        countPushMenu]
    cases hF : Comp.GetSetupSkelMeshComponents.all Option.isSome
    · have hF2 := fillSkelMeshEntries_snd Comp.GetSetupSkelMeshComponents 0
        [⟨FFaceFXSkelMeshComponentId.Default, "<Default>"⟩]
      rw [hF] at hF2
      simp [PreCreateKeyframe, PreCreateKeyframeCompletes, hO, hA, hC, hM, hI, hP, hB, hF,
        hF2, countPushMenu]
    · have hF2 := fillSkelMeshEntries_snd Comp.GetSetupSkelMeshComponents 0
        [⟨FFaceFXSkelMeshComponentId.Default, "<Default>"⟩]
      rw [hF] at hF2
      simp [PreCreateKeyframe, PreCreateKeyframeCompletes, hO, hA, hC, hM, hI, hP, hB, hF,
        hF2, countPushMenu]

/-- C10, on the popup path, on the two rejecting paths and without a window. -/
theorem PreCreateKeyframe_returns_false_witness :
    (PreCreateKeyframe true (exampleEditor []) exampleHelper (.FaceFX exampleTrack) ⟨0⟩).status
      = .returned false ∧
    PreCreateKeyframe true { exampleEditor [] with GetGroupActor := none } exampleHelper
      (.FaceFX exampleTrack) ⟨3⟩ =
      ⟨ResetCachedValues exampleHelper, [.LogWarning .NoActorSelected], .returned false⟩ ∧
    PreCreateKeyframe true { exampleEditor [] with GetGroupActor := some exampleBareActor }
      exampleHelper (.FaceFX exampleTrack) ⟨3⟩ =
      ⟨ResetCachedValues exampleHelper, [.LogWarning (.ComponentNotFoundInActor "Prop")],
        .returned false⟩ ∧
    (PreCreateKeyframe true exampleEditorNoWindow exampleHelper (.FaceFX exampleTrack) ⟨3⟩).status
      = .returned false :=
  ⟨(PreCreateKeyframe_returns_false true (exampleEditor []) exampleHelper (.FaceFX exampleTrack)
      ⟨0⟩).2.1.mpr (by decide), by decide, by decide, by decide⟩

/-! ## The callbacks that record a pick -/

/-- Dismissing never counts as finishing. -/
theorem countFinishAddKey_dismissIfValid (self : UFaceFXMatineeControlHelper)
    (more : List Effect) :
    countFinishAddKey (dismissIfValid self ++ more) = countFinishAddKey more := by
  cases h : self.EntryPopupMenu <;> simp [dismissIfValid, countFinishAddKey, h]

/-- C7, as stated, fails: after `PreCreateKeyframe` opened the popup, a group text
commit that loses focus (no `FinishAddKey`) followed by an asset selection (which
finishes) commits a key with both a non-null animation asset and a set animation id. -/
theorem committedKey_asset_and_id :
    countFinishAddKey (fire examplePopupHelper (some exampleMatinee) (.FaceFX exampleTrack)
      (.AnimGroupCommitted "Greetings" .OnUserMovedFocus)).effects = 0 ∧
    committedKey true (some exampleMatinee) (.FaceFX exampleTrack) (.FaceFX exampleTrack) 0
      examplePopupHelper
      [.AnimGroupCommitted "Greetings" .OnUserMovedFocus,
        .AnimAssetSelected ⟨some (.FaceFXAnim ⟨11⟩)⟩] =
      some ⟨⟨0⟩, FFaceFXSkelMeshComponentId.Default, ⟨"Greetings", NAME_None⟩, some ⟨11⟩,
        false⟩ ∧
    (some (⟨11⟩ : UFaceFXAnim) ≠ none ∧
      FFaceFXAnimId.IsSet ⟨"Greetings", NAME_None⟩ = true) := by
  decide

/-- A callback that does not end the popup and returns: it does not call
`FinishAddKey`, leaves the cached animation alone and records at most its text. -/
theorem fire_not_ending (self : UFaceFXMatineeControlHelper)
    (Matinee : Option IMatineeBase) (Track : UInterpTrack) (Callback : PopupCallback)
    (u : Unit) (hEnd : Callback.EndsPopup = false)
    (hS : (fire self Matinee Track Callback).status = .returned u) :
    countFinishAddKey (fire self Matinee Track Callback).effects = 0 ∧
    (fire self Matinee Track Callback).self.KeyframeAddFaceFXAnim
      = self.KeyframeAddFaceFXAnim ∧
    (fire self Matinee Track Callback).self.KeyframeAddFaceFXAnimId
      = recordText Callback self.KeyframeAddFaceFXAnimId := by
  cases Callback with
  | KeyframeLoopCheckboxChange NewState =>
    simp [fire, OnKeyframeLoopCheckboxChange, recordText, countFinishAddKey]
  | SkelMeshComboBoxSelected NewSelection =>
    cases NewSelection with
    | none => simp [fire, OnSkelMeshComboBoxSelected, recordText, countFinishAddKey]
    | some Selection =>
      cases hW : self.SkelMeshComponentSelection <;>
        simp [fire, OnSkelMeshComboBoxSelected, recordText, countFinishAddKey, hW]
  | AnimGroupCommitted Text CommitType =>
    have hT : CommitType ≠ ETextCommit.OnEnter := by
      simpa [PopupCallback.EndsPopup] using hEnd
    cases Matinee with
    | none => simp [fire, OnAnimGroupCommitted] at hS
    | some M => simp [fire, OnAnimGroupCommitted, hT, recordText, countFinishAddKey]
  | AnimIdCommitted Text CommitType =>
    have hT : CommitType ≠ ETextCommit.OnEnter := by
      simpa [PopupCallback.EndsPopup] using hEnd
    cases Matinee with
    | none => simp [fire, OnAnimIdCommitted] at hS
    | some M => simp [fire, OnAnimIdCommitted, hT, recordText, countFinishAddKey]
  | AnimIdComboBoxSelected NewSelection => simp [PopupCallback.EndsPopup] at hEnd
  | AnimAssetSelected AssetData =>
    have hC : CastFaceFXAnim AssetData.GetAsset = none := by
      simpa [PopupCallback.EndsPopup] using hEnd
    cases hE : self.EntryPopupMenu <;>
      simp [fire, OnAnimAssetSelected, hC, recordText, dismissIfValid, hE, countFinishAddKey]

/-- A callback that ends the popup and returns calls `FinishAddKey`; the selection of a
FaceFX animation caches that animation and leaves the cached animation id alone, any
other ending callback leaves the cached animation alone. -/
theorem fire_ending (self : UFaceFXMatineeControlHelper)
    (Matinee : Option IMatineeBase) (Track : UInterpTrack) (Callback : PopupCallback)
    (u : Unit) (hEnd : Callback.EndsPopup = true)
    (hS : (fire self Matinee Track Callback).status = .returned u) :
    0 < countFinishAddKey (fire self Matinee Track Callback).effects ∧
    (∀ AssetData, Callback = .AnimAssetSelected AssetData →
      (fire self Matinee Track Callback).self.KeyframeAddFaceFXAnim
        = CastFaceFXAnim AssetData.GetAsset ∧
      (fire self Matinee Track Callback).self.KeyframeAddFaceFXAnimId
        = self.KeyframeAddFaceFXAnimId) ∧
    ((∀ AssetData, Callback ≠ .AnimAssetSelected AssetData) →
      (fire self Matinee Track Callback).self.KeyframeAddFaceFXAnim
        = self.KeyframeAddFaceFXAnim) := by
  cases Callback with
  | KeyframeLoopCheckboxChange NewState => simp [PopupCallback.EndsPopup] at hEnd
  | SkelMeshComboBoxSelected NewSelection => simp [PopupCallback.EndsPopup] at hEnd
  | AnimGroupCommitted Text CommitType =>
    have hT : CommitType = ETextCommit.OnEnter := by
      simpa [PopupCallback.EndsPopup] using hEnd
    subst hT
    cases Matinee with
    | none => simp [fire, OnAnimGroupCommitted] at hS
    | some M =>
      simp [fire, OnAnimGroupCommitted, countFinishAddKey_dismissIfValid, countFinishAddKey]
  | AnimIdCommitted Text CommitType =>
    have hT : CommitType = ETextCommit.OnEnter := by
      simpa [PopupCallback.EndsPopup] using hEnd
    subst hT
    cases Matinee with
    | none => simp [fire, OnAnimIdCommitted] at hS
    | some M =>
      simp [fire, OnAnimIdCommitted, countFinishAddKey_dismissIfValid, countFinishAddKey]
  | AnimIdComboBoxSelected NewSelection =>
    cases Matinee with
    | none => simp [fire, OnAnimIdComboBoxSelected] at hS
    | some M =>
      cases NewSelection <;>
        simp [fire, OnAnimIdComboBoxSelected, countFinishAddKey_dismissIfValid,
          countFinishAddKey]
  | AnimAssetSelected AssetData =>
    cases hC : CastFaceFXAnim AssetData.GetAsset with
    | none => simp [PopupCallback.EndsPopup, hC] at hEnd
    | some Anim =>
      cases Matinee with
      | none => simp [fire, OnAnimAssetSelected, hC] at hS
      | some M =>
        simp [fire, OnAnimAssetSelected, hC, countFinishAddKey_dismissIfValid,
          countFinishAddKey]

/-- A popup session that commits, started with no animation cached, hands
`PostCreateKeyframe` a helper that either has no animation cached, or was ended by the
selection of a FaceFX animation and then caches that animation together with the
animation id the text commits before it left. -/
theorem popupSession_last (L : Bool) (Matinee : Option IMatineeBase)
    (Track TrackWithKey : UInterpTrack) (KeyIndex : Int) (Callbacks : List PopupCallback)
    (self : UFaceFXMatineeControlHelper) (Post : PostRun)
    (hAnim : self.KeyframeAddFaceFXAnim = none)
    (hPost : popupSession L Matinee Track TrackWithKey KeyIndex self Callbacks = some Post) :
    ∃ last : UFaceFXMatineeControlHelper,
      Post = PostCreateKeyframe L last TrackWithKey KeyIndex ∧
      (last.KeyframeAddFaceFXAnim = none ∨
        ∃ pre AssetData Anim rest,
          Callbacks = pre ++ .AnimAssetSelected AssetData :: rest ∧
          CastFaceFXAnim AssetData.GetAsset = some Anim ∧
          (∀ Callback ∈ pre, Callback.EndsPopup = false) ∧
          last.KeyframeAddFaceFXAnim = some Anim ∧
          last.KeyframeAddFaceFXAnimId = textCommitted pre self.KeyframeAddFaceFXAnimId) := by
  induction Callbacks generalizing self with
  | nil => simp [popupSession] at hPost
  | cons Callback more ih =>
    rw [popupSession] at hPost
    cases hS : (fire self Matinee Track Callback).status with
    | checkFailed => simp [hS] at hPost
    | nullDereference => simp [hS] at hPost
    | returned u =>
      simp only [hS] at hPost
      cases hEnd : Callback.EndsPopup with
      | true =>
        obtain ⟨hFin, hAsset, hOther⟩ := fire_ending self Matinee Track Callback u hEnd hS
        simp only [gt_iff_lt, hFin, if_true, Option.some.injEq] at hPost
        refine ⟨_, hPost.symm, ?_⟩
        by_cases hIs : ∃ AssetData, Callback = .AnimAssetSelected AssetData
        · obtain ⟨AssetData, hCb⟩ := hIs
          obtain ⟨hA, hI⟩ := hAsset AssetData hCb
          cases hC : CastFaceFXAnim AssetData.GetAsset with
          | none =>
            left
            rw [hA, hC]
          | some Anim =>
            right
            refine ⟨[], AssetData, Anim, more, ?_, hC, ?_, ?_, ?_⟩
            · simp [hCb]
            · intro cb hcb
              cases hcb
            · rw [hA, hC]
            · rw [hI]
              rfl
        · left
          rw [hOther (fun AssetData hCb => hIs ⟨AssetData, hCb⟩), hAnim]
      | false =>
        obtain ⟨hFin, hA, hI⟩ := fire_not_ending self Matinee Track Callback u hEnd hS
        simp only [gt_iff_lt, hFin, lt_self_iff_false, if_false] at hPost
        obtain ⟨last, hLast, hCases⟩ := ih _ (hA.trans hAnim) hPost
        refine ⟨last, hLast, ?_⟩
        rcases hCases with hNone | ⟨pre, AssetData, Anim, rest, hEq, hC, hPre, hLA, hLI⟩
        · exact Or.inl hNone
        · right
          refine ⟨Callback :: pre, AssetData, Anim, rest, ?_, hC, ?_, hLA, ?_⟩
          · simp [hEq]
          · intro cb hcb
            rcases List.mem_cons.mp hcb with h | h
            · rw [h]; exact hEnd
            · exact hPre cb h
          · rw [hLI, hI]
            rfl

/-- A popup session that commits and whose first ending callback is the selection of a
FaceFX animation hands `PostCreateKeyframe` a helper that caches that animation and
the animation id the text commits before the selection left. -/
theorem popupSession_asset (L : Bool) (Matinee : Option IMatineeBase)
    (Track TrackWithKey : UInterpTrack) (KeyIndex : Int) (pre : List PopupCallback)
    (AssetData : FAssetData) (Anim : UFaceFXAnim) (rest : List PopupCallback)
    (self : UFaceFXMatineeControlHelper) (Post : PostRun)
    (hC : CastFaceFXAnim AssetData.GetAsset = some Anim)
    (hPre : ∀ Callback ∈ pre, Callback.EndsPopup = false)
    (hPost : popupSession L Matinee Track TrackWithKey KeyIndex self
      (pre ++ .AnimAssetSelected AssetData :: rest) = some Post) :
    ∃ last : UFaceFXMatineeControlHelper,
      Post = PostCreateKeyframe L last TrackWithKey KeyIndex ∧
      last.KeyframeAddFaceFXAnim = some Anim ∧
      last.KeyframeAddFaceFXAnimId = textCommitted pre self.KeyframeAddFaceFXAnimId := by
  induction pre generalizing self with
  | nil =>
    rw [List.nil_append, popupSession] at hPost
    cases hS : (fire self Matinee Track (.AnimAssetSelected AssetData)).status with
    | checkFailed => simp [hS] at hPost
    | nullDereference => simp [hS] at hPost
    | returned u =>
      simp only [hS] at hPost
      have hEnd : (PopupCallback.AnimAssetSelected AssetData).EndsPopup = true := by
        simp [PopupCallback.EndsPopup, hC]
      obtain ⟨hFin, hAsset, -⟩ := fire_ending self Matinee Track _ u hEnd hS
      simp only [gt_iff_lt, hFin, if_true, Option.some.injEq] at hPost
      obtain ⟨hA, hI⟩ := hAsset AssetData rfl
      exact ⟨_, hPost.symm, hA.trans hC, hI⟩
  | cons Callback more ih =>
    rw [List.cons_append, popupSession] at hPost
    cases hS : (fire self Matinee Track Callback).status with
    | checkFailed => simp [hS] at hPost
    | nullDereference => simp [hS] at hPost
    | returned u =>
      simp only [hS] at hPost
      have hEnd := hPre Callback (List.mem_cons_self _ _)
      obtain ⟨hFin, -, hI⟩ := fire_not_ending self Matinee Track Callback u hEnd hS
      simp only [gt_iff_lt, hFin, lt_self_iff_false, if_false] at hPost
      obtain ⟨last, hLast, hLA, hLI⟩ :=
        ih _ (fun cb hcb => hPre cb (List.mem_cons_of_mem _ hcb)) hPost
      refine ⟨last, hLast, hLA, ?_⟩
      rw [hLI, hI]
      rfl

/-- Text commits of empty text, started from the reset id, leave the reset id. -/
theorem textCommitted_empty (pre : List PopupCallback)
    (hPre : ∀ Callback ∈ pre, Callback.EndsPopup = false)
    (hEmpty : ∀ Callback ∈ pre, ∀ Text CommitType,
      (Callback = .AnimGroupCommitted Text CommitType ∨
        Callback = .AnimIdCommitted Text CommitType) → Text = "") :
    textCommitted pre FFaceFXAnimId.Reset = FFaceFXAnimId.Reset := by
  induction pre with
  | nil => rfl
  | cons Callback more ih =>
    have hStep : recordText Callback FFaceFXAnimId.Reset = FFaceFXAnimId.Reset := by
      cases Callback with
      | AnimGroupCommitted Text CommitType =>
        have := hEmpty _ (List.mem_cons_self _ _) Text CommitType (Or.inl rfl)
        subst this
        rfl
      | AnimIdCommitted Text CommitType =>
        have := hEmpty _ (List.mem_cons_self _ _) Text CommitType (Or.inr rfl)
        subst this
        rfl
      | KeyframeLoopCheckboxChange NewState => rfl
      | SkelMeshComboBoxSelected NewSelection => rfl
      | AnimIdComboBoxSelected NewSelection => rfl
      | AnimAssetSelected AssetData => rfl
    have hRest := ih (fun cb hcb => hPre cb (List.mem_cons_of_mem _ hcb))
      (fun cb hcb => hEmpty cb (List.mem_cons_of_mem _ hcb))
    simp only [textCommitted, List.foldl_cons, hStep] at hRest ⊢
    exact hRest

/-- The key `PostCreateKeyframe` leaves at `KeyIndex` carries the cached animation and,
with animation linkage, the cached animation id. -/
theorem PostCreateKeyframe_key (L : Bool) (self : UFaceFXMatineeControlHelper)
    (Track : UInterpTrack) (KeyIndex : Int) (T2 : UFaceFXMatineeControl)
    (Key : FFaceFXTrackKey)
    (hTrack : (PostCreateKeyframe L self Track KeyIndex).Track = .FaceFX T2)
    (hStatus : (PostCreateKeyframe L self Track KeyIndex).status = .returned ())
    (hKey : T2.Keys[KeyIndex.toNat]? = some Key) :
    Key.Animation = self.KeyframeAddFaceFXAnim ∧
    (L = true → Key.AnimationId = self.KeyframeAddFaceFXAnimId) := by
  cases Track with
  | Other Addr => simp [PostCreateKeyframe] at hStatus
  | FaceFX T =>
    by_cases h0 : KeyIndex < 0
    · simp [PostCreateKeyframe, h0] at hStatus
    cases hOld : T.Keys[KeyIndex.toNat]? with
    | none => simp [PostCreateKeyframe, h0, hOld] at hStatus
    | some Old =>
      have hlt : KeyIndex.toNat < T.Keys.length := by
        by_contra hge
        rw [List.getElem?_eq_none (not_lt.mp hge)] at hOld
        cases hOld
      rw [PostCreateKeyframe_eq L self T KeyIndex Old (not_lt.mp h0) hOld] at hTrack
      simp only [UInterpTrack.FaceFX.injEq] at hTrack
      subst hTrack
      simp only [List.getElem?_set, hlt, if_true, Option.some.injEq] at hKey
      subst hKey
      refine ⟨rfl, ?_⟩
      intro hL
      simp [copySelection, hL]

/-- C7, amended: in a build with animation linkage, for every sequence of popup
callbacks fired after `PreCreateKeyframe` that commits a key, the key has both a
non-null animation asset and a set animation id exactly when the popup is ended by the
selection of a FaceFX animation asset and the group and id text commits before that
selection (none of them on Enter, or they would have ended the popup) left a group or a
name set.  In particular the key never has both when no asset is selected, and never
when every text commit before the end of the popup commits empty text. -/
theorem committedKey_both_iff (Ed : Editor) (self : UFaceFXMatineeControlHelper)
    (Track TrackWithKey : UInterpTrack) (fTime : FloatBits) (Matinee : Option IMatineeBase)
    (KeyIndex : Int) (Callbacks : List PopupCallback) (Key : FFaceFXTrackKey)
    (hKey : committedKey true Matinee Track TrackWithKey KeyIndex
      (PreCreateKeyframe true Ed self Track fTime).self Callbacks = some Key) :
    ((Key.Animation ≠ none ∧ Key.AnimationId.IsSet = true) ↔
      ∃ pre AssetData Anim rest,
        Callbacks = pre ++ .AnimAssetSelected AssetData :: rest ∧
        CastFaceFXAnim AssetData.GetAsset = some Anim ∧
        (∀ Callback ∈ pre, Callback.EndsPopup = false) ∧
        (textCommitted pre FFaceFXAnimId.Reset).IsSet = true) ∧
    ((∀ AssetData, PopupCallback.AnimAssetSelected AssetData ∉ Callbacks) →
      ¬ (Key.Animation ≠ none ∧ Key.AnimationId.IsSet = true)) ∧
    ((∀ Callback ∈ Callbacks, ∀ Text CommitType,
        (Callback = .AnimGroupCommitted Text CommitType ∨
          Callback = .AnimIdCommitted Text CommitType) →
        CommitType = ETextCommit.OnEnter ∨ Text = "") →
      ¬ (Key.Animation ≠ none ∧ Key.AnimationId.IsSet = true)) := by
  obtain ⟨-, hAnim, hId, -⟩ := IsReset_PreCreateKeyframe true Ed self Track fTime
  unfold committedKey at hKey
  cases hPost : popupSession true Matinee Track TrackWithKey KeyIndex
      (PreCreateKeyframe true Ed self Track fTime).self Callbacks with
  | none => simp [hPost] at hKey
  | some Post =>
    rw [hPost] at hKey
    obtain ⟨s2, Track2, status2⟩ := Post
    cases Track2 with
    | Other Addr => simp at hKey
    | FaceFX T2 =>
      cases status2 with
      | checkFailed => simp at hKey
      | nullDereference => simp at hKey
      | returned u =>
        simp only at hKey
        have hIff : (Key.Animation ≠ none ∧ Key.AnimationId.IsSet = true) ↔
            ∃ pre AssetData Anim rest,
              Callbacks = pre ++ .AnimAssetSelected AssetData :: rest ∧
              CastFaceFXAnim AssetData.GetAsset = some Anim ∧
              (∀ Callback ∈ pre, Callback.EndsPopup = false) ∧
              (textCommitted pre FFaceFXAnimId.Reset).IsSet = true := by
          constructor
          · rintro ⟨hNonNull, hSet⟩
            obtain ⟨last, hEq, hLast⟩ := popupSession_last true Matinee Track TrackWithKey
              KeyIndex Callbacks _ _ hAnim hPost
            have hT : (PostCreateKeyframe true last TrackWithKey KeyIndex).Track = .FaceFX T2 := by
              rw [← hEq]
            have hS : (PostCreateKeyframe true last TrackWithKey KeyIndex).status
                = .returned () := by
              rw [← hEq]
            obtain ⟨hA, hI⟩ :=
              PostCreateKeyframe_key true last TrackWithKey KeyIndex T2 Key hT hS hKey
            rcases hLast with hNone | ⟨pre, AssetData, Anim, rest, hC, hCast, hPre, -, hLI⟩
            · exact absurd (hA.trans hNone) hNonNull
            · refine ⟨pre, AssetData, Anim, rest, hC, hCast, hPre, ?_⟩
              rw [hI rfl, hLI, hId] at hSet
              exact hSet
          · rintro ⟨pre, AssetData, Anim, rest, hC, hCast, hPre, hSet⟩
            rw [hC] at hPost
            obtain ⟨last, hEq, hLA, hLI⟩ := popupSession_asset true Matinee Track TrackWithKey
              KeyIndex pre AssetData Anim rest _ _ hCast hPre hPost
            have hT : (PostCreateKeyframe true last TrackWithKey KeyIndex).Track = .FaceFX T2 := by
              rw [← hEq]
            have hS : (PostCreateKeyframe true last TrackWithKey KeyIndex).status
                = .returned () := by
              rw [← hEq]
            obtain ⟨hA, hI⟩ :=
              PostCreateKeyframe_key true last TrackWithKey KeyIndex T2 Key hT hS hKey
            refine ⟨?_, ?_⟩
            · rw [hA, hLA]
              exact Option.some_ne_none Anim
            · rw [hI rfl, hLI, hId]
              exact hSet
        refine ⟨hIff, ?_, ?_⟩
        · intro hNo hBoth
          obtain ⟨pre, AssetData, Anim, rest, hC, -⟩ := hIff.mp hBoth
          exact hNo AssetData (by simp [hC])
        · intro hText hBoth
          obtain ⟨pre, AssetData, Anim, rest, hC, -, hPre, hSet⟩ := hIff.mp hBoth
          have hReset : textCommitted pre FFaceFXAnimId.Reset = FFaceFXAnimId.Reset := by
            apply textCommitted_empty pre hPre
            intro cb hcb Text CommitType hcase
            have hMem : cb ∈ Callbacks := by
              rw [hC]
              exact List.mem_append_left _ hcb
            rcases hText cb hMem Text CommitType hcase with hE | hE
            · have hNot := hPre cb hcb
              rcases hcase with h | h <;> simp [h, hE, PopupCallback.EndsPopup] at hNot
            · exact hE
          rw [hReset] at hSet
          exact absurd hSet (by decide)

/-- C7, amended, at the session "group text, focus moves on, id text, Enter": the
committed key carries group and name and no animation asset. -/
theorem committedKey_both_iff_witness :
    committedKey true (some exampleMatinee) (.FaceFX exampleTrack) (.FaceFX exampleTrack) 1
      (PreCreateKeyframe true (exampleEditor []) exampleHelper (.FaceFX exampleTrack) ⟨0⟩).self
      [.AnimGroupCommitted "Greetings" .OnUserMovedFocus, .AnimIdCommitted "Hello" .OnEnter] =
      some ⟨⟨5⟩, FFaceFXSkelMeshComponentId.Default, ⟨"Greetings", "Hello"⟩, none, false⟩ ∧
    ¬ ((none : Option UFaceFXAnim) ≠ none ∧
      FFaceFXAnimId.IsSet ⟨"Greetings", "Hello"⟩ = true) :=
  ⟨by decide,
    (committedKey_both_iff (exampleEditor []) exampleHelper (.FaceFX exampleTrack)
      (.FaceFX exampleTrack) ⟨0⟩ (some exampleMatinee) 1
      [.AnimGroupCommitted "Greetings" .OnUserMovedFocus, .AnimIdCommitted "Hello" .OnEnter]
      ⟨⟨5⟩, FFaceFXSkelMeshComponentId.Default, ⟨"Greetings", "Hello"⟩, none, false⟩
      (by decide)).2.1 (fun AssetData hMem => by simp at hMem)⟩

end FaceFXMatinee
